import Mathlib

/-!
Verification development for the fedora-ai-website-generator backend.

The Python sources `backend/website_agent.py` and `backend/main.py` are
shallowly embedded below.  Python strings are modelled as `List Char`
(one entry per Unicode code point, matching Python semantics for the
operations used: `in`, `lower`, `strip`, `replace`).  Python floats in
the sources only ever hold the exact values 0.0, 25.0, 75.0, 100.0
(progress) or an opaque elapsed time, so they are modelled as `Nat`.
External effects (the OpenAI call, `json.loads`, Redis, the filesystem
clock) are passed in as explicit parameters/oracles.
-/

set_option maxRecDepth 8000

/-- Python strings, one element per code point. -/
abbrev Str := List Char

/-- Does `s` start with `pat`?  (Helper for the Python `in` and `replace`.) -/
def pyStartsWith : Str → Str → Bool
  | _, [] => true
  | [], _ :: _ => false
  | c :: s, p :: ps => c == p && pyStartsWith s ps

/-- Python substring test `pat in s`. -/
def pyContains : Str → Str → Bool
  | [], pat => pyStartsWith [] pat
  | c :: s, pat => pyStartsWith (c :: s) pat || pyContains s pat

/-- Python `s.replace(old, new, 1)`: replace the first occurrence only. -/
def pyReplaceOnce (s old new : Str) : Str :=
  match s with
  | [] => if pyStartsWith [] old then new else []
  | c :: rest =>
    if pyStartsWith (c :: rest) old then new ++ (c :: rest).drop old.length
    else c :: pyReplaceOnce rest old new

/-- Fuelled worker for `pyReplaceAll`.  Each step consumes at least one
character of `s`, so fuel `s.length` always suffices; the fuel only makes
the recursion structural. -/
def pyReplaceAllAux : Nat → Str → Str → Str → Str
  | 0, s, _, _ => s
  | _ + 1, [], _, _ => []
  | fuel + 1, c :: rest, old, new =>
    if pyStartsWith (c :: rest) old then
      if old.isEmpty then c :: rest
      else new ++ pyReplaceAllAux fuel ((c :: rest).drop old.length) old new
    else c :: pyReplaceAllAux fuel rest old new

/-- Python `s.replace(old, new)`: replace all occurrences, leftmost first,
non-overlapping.  (The sources never pass an empty `old`.) -/
def pyReplaceAll (s old new : Str) : Str :=
  pyReplaceAllAux s.length s old new

/-- Fuelled worker for `pyCount`. -/
def pyCountAux : Nat → Str → Str → Nat
  | 0, _, _ => 0
  | _ + 1, [], _ => 0
  | fuel + 1, c :: rest, pat =>
    if pyStartsWith (c :: rest) pat then
      if pat.isEmpty then 1 + pyCountAux fuel rest pat
      else 1 + pyCountAux fuel ((c :: rest).drop pat.length) pat
    else pyCountAux fuel rest pat

/-- Python `s.count(pat)`: non-overlapping occurrence count. -/
def pyCount (s pat : Str) : Nat :=
  pyCountAux s.length s pat

/-- Python `s.lower()` (the inputs that reach it in the sources are ASCII). -/
def pyLower (s : Str) : Str := s.map Char.toLower

/-- Python `s.strip()`. -/
def pyStrip (s : Str) : Str :=
  ((s.dropWhile Char.isWhitespace).reverse.dropWhile Char.isWhitespace).reverse

/-- Is a list of naturals non-decreasing? -/
def nonDecreasing : List Nat → Bool
  | [] => true
  | [_] => true
  | a :: b :: t => Nat.ble a b && nonDecreasing (b :: t)

example : pyReplaceAll (("<body><img src=x></body>").data) (("<img").data)
    (("<img loading=\"lazy\"").data) = ("<body><img loading=\"lazy\" src=x></body>").data := by
  decide

example : pyContains (("abcd").data) (("bc").data) = true := by decide

example : pyReplaceOnce (("aXbXc").data) (("X").data) (("Y").data) = ("aYbXc").data := by
  decide

/-! ## Data model (`website_agent.py`) -/

/-- An already-processed image descriptor (`request.images` entries are dicts;
only the `url` key is read, via `img.get("url", "")`). -/
structure ImageDescriptor where
  url : Str
deriving DecidableEq, Repr

/-- `GenerationRequest` (pydantic model, `website_agent.py` lines 16-24). -/
structure GenerationRequest where
  site_name : Str
  description : Str
  style : Str
  theme : Str
  target_devices : List Str
  seo_enabled : Bool
  multi_language : Bool
  images : List ImageDescriptor
deriving DecidableEq, Repr

/-- `GenerationResult` (pydantic model, `website_agent.py` lines 26-36).
`generation_time` is a Python float holding an opaque elapsed duration;
modelled as `Nat`. -/
structure GenerationResult where
  status : Str
  site_name : Str
  generation_id : Str
  html_content : Str
  css_content : Str
  js_content : Str
  seo_meta : List (Str × Str)
  images_used : List Str
  generation_time : Nat
  error_message : Str
deriving DecidableEq, Repr

/-- The dictionary shape `json.loads` yields for a well-formed LLM reply;
`none` fields model absent keys (read with `.get(key, default)`). -/
structure LlmData where
  html : Option Str
  css : Option Str
  js : Option Str
  seo : Option (List (Str × Str))
deriving DecidableEq, Repr

/-- Outcome of the awaited OpenAI chat-completion call: either the call (or
reading `response.choices[0].message.content`) raises with message `msg`, or
it returns the reply text. -/
inductive LlmOutcome where
  | raises (msg : Str)
  | returns (content : Str)
deriving DecidableEq, Repr

namespace Agent

/-- The viewport tag inserted by `_optimize_html` (`website_agent.py` line 203). -/
def viewport_meta : Str :=
  ("<meta name=\"viewport\" content=\"width=device-width, initial-scale=1.0\">").data

/-- The `base_css` literal of `_optimize_css` (`website_agent.py` lines 218-268). -/
def base_css : Str :=
  ("\n        /* Fedora AI Generator - Base Responsive Styles */\n        :root \x7b\n            --primary-color: #3b6ea5;\n            --secondary-color: #77216F;\n            --text-color: #2c2c2c;\n            --bg-color: #ffffff;\n            --mobile: 320px;\n            --tablet: 768px;\n            --desktop: 1024px;\n            --large: 1440px;\n        \x7d\n        \n        * \x7b\n            box-sizing: border-box;\n            margin: 0;\n            padding: 0;\n        \x7d\n        \n        html \x7b\n            font-size: 16px;\n            scroll-behavior: smooth;\n        \x7d\n        \n        body \x7b\n            font-family: -apple-system, BlinkMacSystemFont, \x27Segoe UI\x27, Roboto, Oxygen, Ubuntu, Cantarell, sans-serif;\n            line-height: 1.6;\n            color: var(--text-color);\n            background-color: var(--bg-color);\n            min-height: 100vh;\n        \x7d\n        \n        img \x7b\n            max-width: 100%;\n            height: auto;\n        \x7d\n        \n        /* Mobile First Media Queries */\n        @media (min-width: 768px) \x7b\n            html \x7b font-size: 17px; \x7d\n        \x7d\n        \n        @media (min-width: 1024px) \x7b\n            html \x7b font-size: 18px; \x7d\n        \x7d\n        \n        /* Accessibility */\n        @media (prefers-reduced-motion: reduce) \x7b\n            * \x7b animation-duration: 0.01ms !important; \x7d\n        \x7d\n        ").data

/-- `_optimize_html` (`website_agent.py` lines 199-214).  `target_devices`
is accepted and ignored exactly as in the source. -/
def optimize_html (html : Str) (target_devices : List Str) : Str :=
  let html :=
    if pyContains (pyLower html) (("viewport").data) = false then
      pyReplaceOnce html (("</head>").data) (viewport_meta ++ ("\n</head>").data)
    else html
  let html := pyReplaceAll html (("<img").data) (("<img loading=\"lazy\"").data)
  let html :=
    if pyContains html (("<main>").data) = false then
      pyReplaceOnce (pyReplaceOnce html (("<body>").data) (("<body>\n    <main>").data))
        (("</body>").data) (("    </main>\n</body>").data)
    else html
  html

/-- `_optimize_css` (`website_agent.py` lines 216-270): unconditionally
returns `base_css + "\n" + css`. -/
def optimize_css (css : Str) (target_devices : List Str) : Str :=
  base_css ++ ("\n").data ++ css

/-- `_parse_response` (`website_agent.py` lines 192-197).  `json.loads` is an
oracle parameter; on its failure the function raises a `ValueError` whose
message prefixes the decode error, modelled as the `Except.error` value. -/
def parse_response (jsonLoads : Str → Except Str LlmData) (content : Str) :
    Except Str LlmData :=
  match jsonLoads (pyStrip content) with
  | Except.ok d => Except.ok d
  | Except.error e => Except.error ((("Ошибка парсинга JSON ответа: ").data) ++ e)

/-- `generate_website` (`website_agent.py` lines 95-143).  The OpenAI call is
the `llm` oracle, JSON decoding the `jsonLoads` oracle, and the elapsed
wall-clock time the `elapsed` parameter (the source computes it with
`datetime.now()` in both the success and the except branch).  Fields not
passed to the `GenerationResult` constructor in the source take their
pydantic defaults, written out explicitly here. -/
def generate_website (request : GenerationRequest) (llm : LlmOutcome)
    (jsonLoads : Str → Except Str LlmData) (elapsed : Nat) : GenerationResult :=
  match llm with
  | LlmOutcome.raises msg =>
      { status := ("error").data
        site_name := []
        generation_id := []
        html_content := []
        css_content := []
        js_content := []
        seo_meta := []
        images_used := []
        generation_time := elapsed
        error_message := msg }
  | LlmOutcome.returns content =>
    match parse_response jsonLoads content with
    | Except.error e =>
        { status := ("error").data
          site_name := []
          generation_id := []
          html_content := []
          css_content := []
          js_content := []
          seo_meta := []
          images_used := []
          generation_time := elapsed
          error_message := e }
    | Except.ok d =>
        { status := ("success").data
          site_name := request.site_name
          generation_id := []
          html_content := optimize_html (d.html.getD []) request.target_devices
          css_content := optimize_css (d.css.getD []) request.target_devices
          js_content := d.js.getD []
          seo_meta := d.seo.getD []
          images_used := request.images.map (fun img => img.url)
          generation_time := elapsed
          error_message := [] }

end Agent

/-! ## Orchestrator (`main.py`) -/

/-- `GenerationStatus` (pydantic model, `main.py` lines 46-52).  The progress
float only ever holds 0.0, 25.0, 75.0 or 100.0; modelled as `Nat`. -/
structure GenerationStatus where
  generation_id : Str
  status : Str
  progress : Nat
  message : Str
  result_url : Option Str
  error : Option Str
deriving DecidableEq, Repr

/-- The JSON object cached under the cache key by `process_generation`
(`main.py` lines 352-360): the generation ID and its result URL. -/
structure CacheEntry where
  generation_id : Str
  result_url : Str
deriving DecidableEq, Repr

/-- Metadata written to `meta.json` by `save_generation_result`
(`main.py` lines 417-429).  `created_at` is the `datetime.now().isoformat()`
string, passed in as a parameter. -/
structure MetaData where
  generation_id : Str
  site_name : Str
  created_at : Str
  generation_time : Nat
  seo_meta : List (Str × Str)
  images_used : List Str
deriving DecidableEq, Repr

/-- The writes one `save_generation_result` call performs inside the per-ID
site directory: `some content` means the named file is written (overwritten
if present) with that content, `none` means the file is not touched.
`meta_json` is always written. -/
structure SaveOutcome where
  index_html : Option Str
  styles_css : Option Str
  script_js : Option Str
  meta_json : MetaData
deriving DecidableEq, Repr

/-- The contents of a per-ID site directory on disk. -/
structure SiteDir where
  index_html : Option Str
  styles_css : Option Str
  script_js : Option Str
  meta_json : Option MetaData
deriving DecidableEq, Repr

/-- Filesystem semantics of applying one `save_generation_result` call to a
prior directory state: written files replace prior content (`Path.write_text`
truncates and overwrites), untouched files keep their prior content. -/
def applySave (prior : SiteDir) (s : SaveOutcome) : SiteDir :=
  { index_html := s.index_html.orElse (fun _ => prior.index_html)
    styles_css := s.styles_css.orElse (fun _ => prior.styles_css)
    script_js := s.script_js.orElse (fun _ => prior.script_js)
    meta_json := some s.meta_json }

/-- Failure injection for the fallible steps of `process_generation`:
each field is `some msg` when the corresponding awaited I/O operation
(Redis `setex` for the status checkpoints, the filesystem writes of
`save_generation_result`, the Redis cache `setex`) raises an exception with
message `msg`, and `none` when it succeeds.  The agent call itself is not
listed: `WebsiteGeneratorAgent.generate_website` catches its own exceptions
and always returns (see `Agent.generate_website`). -/
structure RunEnv where
  upd25_raises : Option Str
  upd75_raises : Option Str
  save_raises : Option Str
  cache_raises : Option Str
  upd100_raises : Option Str
deriving DecidableEq, Repr

/-- The `RunEnv` in which every step succeeds. -/
def RunEnv.ok : RunEnv :=
  { upd25_raises := none, upd75_raises := none, save_raises := none
    cache_raises := none, upd100_raises := none }

namespace Orchestrator

/-- The result URL format used throughout `main.py`
(`f"/sites/{generation_id}/index.html"`). -/
def site_url (generation_id : Str) : Str :=
  ("/sites/").data ++ generation_id ++ ("/index.html").data

/-- The string hashed into the cache key (`main.py` line 207:
`hashlib.md5(f'{site_name}{description}{style}'.encode())`).  The MD5 step is
injective for the purpose of "what the key depends on", so the preimage
string models the key: theme, device list and flags do not enter it. -/
def cache_key_source (site_name description style : Str) : Str :=
  site_name ++ description ++ style

/-- What the `/api/generate` endpoint (`main.py` lines 183-260) does and
returns for a valid request, after validation and image processing. -/
structure SubmitOutcome where
  /-- The `GenerationStatus` returned to the HTTP caller. -/
  response : GenerationStatus
  /-- Whether `background_tasks.add_task(self.process_generation, ...)` ran. -/
  backgroundScheduled : Bool
  /-- Status-store (`status:{id}`) writes performed by the endpoint itself.
  The endpoint never calls `update_generation_status`, so this is `[]` on
  every path; the field makes that observable. -/
  statusStoreWrites : List GenerationStatus
deriving DecidableEq, Repr

/-- The `generate_website` endpoint (`main.py` lines 183-260), from the cache
probe onwards.  `generation_id` is the fresh per-request
`sha256(f"{site_name}{description}{style}{time.time()}")[:16]` digest (opaque
here because of the timestamp); `cached` is what
`json.loads(self.redis_client.get(cache_key))` yields, `none` on a cache
miss (or with Redis down).  On a hit the source parses `cached_data` and
then never uses it: the response is built from the fresh `generation_id`. -/
def generate_website (generation_id : Str) (cached : Option CacheEntry) :
    SubmitOutcome :=
  match cached with
  | some _ =>
      { response :=
          { generation_id := generation_id
            status := ("completed").data
            progress := 100
            message := ("Результат загружен из кэша").data
            result_url := some (site_url generation_id)
            error := none }
        backgroundScheduled := false
        statusStoreWrites := [] }
  | none =>
      { response :=
          { generation_id := generation_id
            status := ("processing").data
            progress := 0
            message := ("Генерация сайта начата").data
            result_url := none
            error := none }
        backgroundScheduled := true
        statusStoreWrites := [] }

/-- Result of the `/api/generation/{generation_id}` endpoint: the returned
status record, or the `HTTPException(404, "Генерация не найдена")`. -/
inductive StatusResult where
  | found (st : GenerationStatus)
  | notFound
deriving DecidableEq, Repr

/-- `get_generation_status` (`main.py` lines 262-282).  `store` is what the
Redis lookup of `status:{generation_id}` yields (`none` when the key is
absent, expired, or Redis is down); `site_dir_exists` and
`index_html_exists` are the two filesystem probes of line 273. -/
def get_generation_status (generation_id : Str) (store : Option GenerationStatus)
    (site_dir_exists index_html_exists : Bool) : StatusResult :=
  match store with
  | some st => StatusResult.found st
  | none =>
    if site_dir_exists && index_html_exists then
      StatusResult.found
        { generation_id := generation_id
          status := ("completed").data
          progress := 100
          message := ("Генерация завершена").data
          result_url := some (site_url generation_id)
          error := none }
    else StatusResult.notFound

/-- The record `update_generation_status` (`main.py` lines 379-397) writes
under `status:{generation_id}` (with a 1-hour expiry, not modelled). -/
def update_generation_status (generation_id status : Str) (progress : Nat)
    (message : Str) (result_url : Option Str) (error : Option Str) :
    GenerationStatus :=
  { generation_id := generation_id
    status := status
    progress := progress
    message := message
    result_url := result_url
    error := error }

/-- `save_generation_result` (`main.py` lines 399-429).  Each payload file is
written only when the corresponding string is truthy (non-empty); `meta.json`
is always written. -/
def save_generation_result (generation_id : Str) (result : GenerationResult)
    (created_at : Str) : SaveOutcome :=
  { index_html := if result.html_content = [] then none else some result.html_content
    styles_css := if result.css_content = [] then none else some result.css_content
    script_js := if result.js_content = [] then none else some result.js_content
    meta_json :=
      { generation_id := generation_id
        site_name := result.site_name
        created_at := created_at
        generation_time := result.generation_time
        seo_meta := result.seo_meta
        images_used := result.images_used } }

/-- Everything one `process_generation` run does that is observable from
outside: the sequence of status-store writes, the save (if reached), and the
cache write (if reached). -/
structure RunOutcome where
  statusWrites : List GenerationStatus
  saved : Option SaveOutcome
  cacheWrite : Option (Str × CacheEntry)
deriving DecidableEq, Repr

/-- `process_generation` (`main.py` lines 337-377), the background unit.
`result` is the value returned by `self.agent.generate_website(request)` —
that call never raises (see `Agent.generate_website`), so its outcome enters
as a parameter.  `env` injects exceptions into the five fallible awaited
steps; the `except Exception` handler converts the first exception into the
terminal `error` status write (progress 0.0, message "Ошибка генерации",
error = str(e)).  The handler's own status write is assumed to succeed. -/
def process_generation (generation_id cache_key : Str) (result : GenerationResult)
    (created_at : Str) (env : RunEnv) : RunOutcome :=
  let w25 := update_generation_status generation_id (("processing").data) 25
    (("Генерация контента...").data) none none
  let w75 := update_generation_status generation_id (("processing").data) 75
    (("Оптимизация кода...").data) none none
  let w100 := update_generation_status generation_id (("completed").data) 100
    (("Генерация завершена").data) (some (site_url generation_id)) none
  let errW := fun (e : Str) => update_generation_status generation_id
    (("error").data) 0 (("Ошибка генерации").data) none (some e)
  match env.upd25_raises with
  | some e => { statusWrites := [errW e], saved := none, cacheWrite := none }
  | none =>
    match env.upd75_raises with
    | some e => { statusWrites := [w25, errW e], saved := none, cacheWrite := none }
    | none =>
      match env.save_raises with
      | some e =>
          { statusWrites := [w25, w75, errW e], saved := none, cacheWrite := none }
      | none =>
        let sv := save_generation_result generation_id result created_at
        match env.cache_raises with
        | some e =>
            { statusWrites := [w25, w75, errW e], saved := some sv, cacheWrite := none }
        | none =>
          let cw := (cache_key,
            { generation_id := generation_id
              result_url := site_url generation_id : CacheEntry })
          match env.upd100_raises with
          | some e =>
              { statusWrites := [w25, w75, errW e], saved := some sv,
                cacheWrite := some cw }
          | none =>
              { statusWrites := [w25, w75, w100], saved := some sv,
                cacheWrite := some cw }

/-- Does an optional status write carry a terminal (`completed` or `error`)
status? -/
def isTerminalWrite (o : Option GenerationStatus) : Bool :=
  match o with
  | some t => t.status == ("completed").data || t.status == ("error").data
  | none => false

end Orchestrator

/-! ## Concrete fixtures (the spec's Bakery example and friends) -/

/-- The default device list. -/
def exDevices : List Str := [("mobile").data, ("tablet").data, ("desktop").data]

/-- The spec's example submission. -/
def bakeryReq : GenerationRequest :=
  { site_name := ("Bakery").data
    description := ("A cozy neighborhood bakery site").data
    style := ("modern").data
    theme := ("light").data
    target_devices := exDevices
    seo_enabled := true
    multi_language := false
    images := [] }

/-- The spec's example LLM html payload. -/
def bakeryHtml : Str := ("<body><img src=x></body>").data

/-- An html payload that does carry a closing head tag. -/
def headHtml : Str := ("<head><title>t</title></head><body><img src=x></body>").data

/-- A concrete fresh generation ID (in the source,
`sha256(f"{site_name}{description}{style}{time.time()}")[:16]`). -/
def gid : Str := ("abcd1234abcd1234").data

/-- A concrete cache key (in the source, `"generation:" + md5(...)`). -/
def ckey : Str := ("generation:0f1e2d3c").data

/-- A concrete `datetime.now().isoformat()` value. -/
def createdAt : Str := ("2026-10-12T00:00:00").data

/-- A `json.loads` oracle that always fails to decode. -/
def failLoads : Str → Except Str LlmData :=
  fun _ => Except.error (("Expecting value: line 1 column 1 (char 0)").data)

/-- A `json.loads` oracle returning the spec's mock reply
`{"html":"<body><img src=x></body>","css":"","js":"","seo":{"title":"Bakery"}}`. -/
def bakeryLoads : Str → Except Str LlmData :=
  fun _ => Except.ok
    { html := some bakeryHtml
      css := some []
      js := some []
      seo := some [((("title").data), (("Bakery").data))] }

/-- The agent result for the Bakery submission when the OpenAI call itself
raises (unreachable endpoint): the client catches the exception and returns
an error-status result. -/
def connFailureResult : GenerationResult :=
  Agent.generate_website bakeryReq (LlmOutcome.raises (("Connection error.").data)) failLoads 3

/-- The agent result for the Bakery submission with the spec's LLM mock. -/
def bakeryResult : GenerationResult :=
  Agent.generate_website bakeryReq
    (LlmOutcome.returns (("\x7b\"html\":\"<body><img src=x></body>\",\"css\":\"\",\"js\":\"\",\"seo\":\x7b\"title\":\"Bakery\"\x7d\x7d").data))
    bakeryLoads 2

/-! ## Claim C1 -/

/-- Claim C1 (code bug): a Generation Client failure such as an unreachable
endpoint does NOT end the run in an `error` status.  The client catches the
exception itself and returns an error-status `GenerationResult`
(`website_agent.py` lines 137-143); `process_generation` never inspects
`result.status`, so with no infrastructure failure it persists the (empty)
result, writes the cache entry, and ends with a terminal `completed` status
at 100% — while `index.html` is never written, so the advertised result URL
is dead. -/
theorem C1_llm_failure_marked_completed :
    connFailureResult.status = ("error").data ∧
    connFailureResult.error_message = ("Connection error.").data ∧
    (Orchestrator.process_generation gid ckey connFailureResult createdAt
        RunEnv.ok).statusWrites.getLast?
      = some { generation_id := gid, status := ("completed").data, progress := 100,
               message := ("Генерация завершена").data,
               result_url := some (Orchestrator.site_url gid), error := none } ∧
    (Orchestrator.process_generation gid ckey connFailureResult createdAt
        RunEnv.ok).statusWrites.all (fun w => w.status != ("error").data) = true ∧
    (Orchestrator.process_generation gid ckey connFailureResult createdAt
        RunEnv.ok).cacheWrite
      = some (ckey, { generation_id := gid, result_url := Orchestrator.site_url gid }) ∧
    (Orchestrator.save_generation_result gid connFailureResult createdAt).index_html
      = none := by
  decide

/-! ## Claim C2 -/

/-- The cache entry a completed earlier Bakery generation left behind. -/
def cachedBakery : CacheEntry :=
  { generation_id := ("1111aaaa2222bbbb").data
    result_url := Orchestrator.site_url (("1111aaaa2222bbbb").data) }

/-- The fresh per-request generation ID of the second submission. -/
def freshGid : Str := ("3333cccc4444dddd").data

/-- Claim C2 (code bug): on a cache hit the endpoint does return `completed`
at 100% without scheduling the background work (so the Generation Client is
not invoked again), but the result URL is built from the fresh per-request
generation ID — the parsed cache entry is never used — so it does not point
at the cached result (and the fresh ID's directory is never created). -/
theorem C2_cache_hit_ignores_cached_entry :
    (Orchestrator.generate_website freshGid (some cachedBakery)).response.status
      = ("completed").data ∧
    (Orchestrator.generate_website freshGid (some cachedBakery)).response.progress = 100 ∧
    (Orchestrator.generate_website freshGid (some cachedBakery)).backgroundScheduled
      = false ∧
    (Orchestrator.generate_website freshGid (some cachedBakery)).response.result_url
      = some (Orchestrator.site_url freshGid) ∧
    (Orchestrator.generate_website freshGid (some cachedBakery)).response.result_url
      ≠ some cachedBakery.result_url ∧
    (Orchestrator.generate_website freshGid (some cachedBakery)).response.generation_id
      ≠ cachedBakery.generation_id := by
  decide

/-! ## Claim C3 -/

/-- Claim C3 (counterexample): HTML normalization is not idempotent — on the
spec's own example payload, applying it twice differs from applying it
once. -/
theorem C3_counterexample :
    Agent.optimize_html (Agent.optimize_html bakeryHtml exDevices) exDevices
      ≠ Agent.optimize_html bakeryHtml exDevices := by
  decide

/-- Claim C3 (amended): the viewport and wrapper insertions are
presence-guarded and do not duplicate, but the lazy-load marking is a blind
`replace("<img", ...)` that re-fires on already-marked tags, so a second
normalization pass duplicates the `loading="lazy"` attribute.  Shown exactly
on the example payload, and the guard behaviour on an input with a head
tag. -/
theorem C3_amended_lazy_load_duplicates :
    Agent.optimize_html bakeryHtml exDevices
      = ("<body>\n    <main><img loading=\"lazy\" src=x>    </main>\n</body>").data ∧
    Agent.optimize_html (Agent.optimize_html bakeryHtml exDevices) exDevices
      = ("<body>\n    <main><img loading=\"lazy\" loading=\"lazy\" src=x>    </main>\n</body>").data ∧
    pyCount (Agent.optimize_html bakeryHtml exDevices) (("loading=\"lazy\"").data) = 1 ∧
    pyCount (Agent.optimize_html (Agent.optimize_html bakeryHtml exDevices) exDevices)
      (("loading=\"lazy\"").data) = 2 ∧
    pyCount (Agent.optimize_html (Agent.optimize_html headHtml exDevices) exDevices)
      (("viewport").data) = 1 ∧
    pyCount (Agent.optimize_html (Agent.optimize_html headHtml exDevices) exDevices)
      (("<main>").data) = 1 := by
  decide

/-! ## Claim C4 -/

/-- Claim C4 (counterexample): CSS normalization is not idempotent — already
on the empty stylesheet, applying it twice differs from applying it once. -/
theorem C4_counterexample :
    Agent.optimize_css (Agent.optimize_css [] exDevices) exDevices
      ≠ Agent.optimize_css [] exDevices := by
  intro h
  have hlen := congrArg List.length h
  have hn : (("\n").data).length = 1 := rfl
  simp [Agent.optimize_css, List.length_append, hn] at hlen

/-- Claim C4 (amended): CSS normalization unconditionally prepends the base
stylesheet, so a second application prepends a second copy of it: for every
stylesheet, applying the normalization twice differs from applying it once,
and the twice-applied output is exactly the base stylesheet and a newline
prepended to the once-applied output. -/
theorem C4_amended_css_base_duplicates (css : Str) (d : List Str) :
    Agent.optimize_css (Agent.optimize_css css d) d ≠ Agent.optimize_css css d ∧
    Agent.optimize_css (Agent.optimize_css css d) d
      = Agent.base_css ++ ("\n").data ++ Agent.optimize_css css d := by
  constructor
  · intro h
    have hlen := congrArg List.length h
    have hn : (("\n").data).length = 1 := rfl
    simp [Agent.optimize_css, List.length_append, hn] at hlen
    omega
  · rfl

/-! ## Claim C5 -/

/-- Claim C5 (counterexample): the spec's example payload lacks a viewport
meta tag, yet its normalized output still contains none — the insertion
site `</head>` is absent, so `replace` is a no-op. -/
theorem C5_counterexample :
    pyContains (pyLower bakeryHtml) (("viewport").data) = false ∧
    pyContains (Agent.optimize_html bakeryHtml exDevices) (("viewport").data) = false := by
  decide

/-! Substring toolkit used for the universal part of claim C5: the viewport
block inserted by the first normalization step must be shown to survive the
later `<img` replacement and the `<body>`/`</body>` wrapping.  The side
conditions (the patterns cannot overlap an occurrence of the protected
string) are decidable and discharged by `decide` at the call sites. -/

theorem pyStartsWith_nil_pat (s : Str) : pyStartsWith s [] = true := by
  cases s <;> rfl

theorem pyStartsWith_append_left (p u : Str) : pyStartsWith (p ++ u) p = true := by
  induction p with
  | nil => exact pyStartsWith_nil_pat u
  | cons c p ih => simp [pyStartsWith, ih]

theorem pyStartsWith_refl (s : Str) : pyStartsWith s s = true := by
  simpa using pyStartsWith_append_left s []

theorem exists_of_pyStartsWith : ∀ {s p : Str}, pyStartsWith s p = true →
    ∃ u, s = p ++ u := by
  intro s p
  induction p generalizing s with
  | nil => exact fun _ => ⟨s, rfl⟩
  | cons c p ih =>
    intro h
    cases s with
    | nil => simp [pyStartsWith] at h
    | cons a s =>
      simp only [pyStartsWith, Bool.and_eq_true, beq_iff_eq] at h
      obtain ⟨u, hu⟩ := ih h.2
      exact ⟨u, by simp [h.1, hu]⟩

theorem pyStartsWith_append_of {a p : Str} (b : Str) (h : pyStartsWith a p = true) :
    pyStartsWith (a ++ b) p = true := by
  obtain ⟨u, rfl⟩ := exists_of_pyStartsWith h
  rw [List.append_assoc]
  exact pyStartsWith_append_left p (u ++ b)

theorem pyStartsWith_trans_le : ∀ {s a b : Str}, pyStartsWith s a = true →
    pyStartsWith s b = true → a.length ≤ b.length → pyStartsWith b a = true := by
  intro s a b
  induction a generalizing s b with
  | nil => exact fun _ _ _ => pyStartsWith_nil_pat b
  | cons x a ih =>
    intro h1 h2 hle
    cases s with
    | nil => simp [pyStartsWith] at h1
    | cons y s =>
      cases b with
      | nil => simp at hle
      | cons z b =>
        simp only [pyStartsWith, Bool.and_eq_true, beq_iff_eq] at h1 h2 ⊢
        have hlen : a.length ≤ b.length := by
          simp only [List.length_cons] at hle
          omega
        exact ⟨by rw [← h2.1, h1.1], ih h1.2 h2.2 hlen⟩

theorem pyContains_nil_pat (s : Str) : pyContains s [] = true := by
  cases s <;> rfl

theorem pyContains_of_pyStartsWith : ∀ {s p : Str}, pyStartsWith s p = true →
    pyContains s p = true := by
  intro s p h
  cases s with
  | nil =>
    cases p with
    | nil => rfl
    | cons c q => simp [pyStartsWith] at h
  | cons c s => simp [pyContains, h]

theorem pyContains_cons {s p : Str} (c : Char) (h : pyContains s p = true) :
    pyContains (c :: s) p = true := by
  simp [pyContains, h]

theorem pyContains_elim_cons {s p : Str} {c : Char} (h : pyContains (c :: s) p = true)
    (hns : pyStartsWith (c :: s) p = false) : pyContains s p = true := by
  simpa [pyContains, hns] using h

theorem pyContains_append_right {b p : Str} (a : Str) (h : pyContains b p = true) :
    pyContains (a ++ b) p = true := by
  induction a with
  | nil => simpa using h
  | cons c a ih => exact pyContains_cons c ih

theorem pyContains_append_left {a p : Str} (b : Str) (h : pyContains a p = true) :
    pyContains (a ++ b) p = true := by
  induction a with
  | nil =>
    cases p with
    | nil => exact pyContains_nil_pat b
    | cons c q => simp [pyContains, pyStartsWith] at h
  | cons c a ih =>
    have hsplit : pyStartsWith (c :: a) p = true ∨ pyContains a p = true := by
      simpa [pyContains] using h
    rcases hsplit with hs | hc
    · exact pyContains_of_pyStartsWith (pyStartsWith_append_of b hs)
    · exact pyContains_cons c (ih hc)

theorem pyContains_drop {s p : Str} (k : Nat) (h : pyContains (s.drop k) p = true) :
    pyContains s p = true := by
  have := pyContains_append_right (s.take k) h
  simpa [List.take_append_drop] using this

theorem exists_of_pyContains : ∀ {s p : Str}, pyContains s p = true →
    ∃ a b, s = a ++ p ++ b := by
  intro s p
  induction s with
  | nil =>
    intro h
    cases p with
    | nil => exact ⟨[], [], rfl⟩
    | cons c q => simp [pyContains, pyStartsWith] at h
  | cons c s ih =>
    intro h
    have hsplit : pyStartsWith (c :: s) p = true ∨ pyContains s p = true := by
      simpa [pyContains] using h
    rcases hsplit with hs | hc
    · obtain ⟨u, hu⟩ := exists_of_pyStartsWith hs
      exact ⟨[], u, by simpa using hu⟩
    · obtain ⟨a, b, hab⟩ := ih hc
      exact ⟨c :: a, b, by simp [hab]⟩

/-- If `old` matches at the head of `s` and the protected string `T` occurs
in `s`, then (under the no-overlap side conditions) the occurrence of `T`
lies wholly beyond the match and survives dropping it. -/
theorem pyContains_drop_of_head_match {s old T : Str}
    (hc1 : pyContains T old = false)
    (hc2 : ∀ m, m < old.length → 1 ≤ m → T.take m ≠ old.drop (old.length - m))
    (hc4 : old.length < T.length)
    (hcont : pyContains s T = true) (hmatch : pyStartsWith s old = true) :
    pyContains (s.drop old.length) T = true := by
  obtain ⟨a, b, hab⟩ := exists_of_pyContains hcont
  obtain ⟨u, hu⟩ := exists_of_pyStartsWith hmatch
  have heq : old ++ u = a ++ (T ++ b) := by
    rw [← hu, hab, List.append_assoc]
  rcases List.append_eq_append_iff.mp heq with ⟨w, hw1, hw2⟩ | ⟨w, hw1, hw2⟩
  · -- a = old ++ w: the occurrence starts after the match
    have hs2 : s = old ++ (w ++ (T ++ b)) := by
      rw [hab, hw1]
      simp [List.append_assoc]
    rw [hs2, List.drop_left]
    exact pyContains_append_right w
      (pyContains_of_pyStartsWith (pyStartsWith_append_left T b))
  · -- old = a ++ w
    by_cases hwnil : w = []
    · -- the occurrence starts exactly at the end of the match
      subst hwnil
      have ha : old = a := by simpa using hw1
      have hs2 : s = old ++ (T ++ b) := by
        rw [hab, ← ha, List.append_assoc]
      rw [hs2, List.drop_left]
      exact pyContains_of_pyStartsWith (pyStartsWith_append_left T b)
    · rcases List.append_eq_append_iff.mp hw2 with ⟨t, ht1, ht2⟩ | ⟨t, ht1, ht2⟩
      · -- w = T ++ t: T would fit inside old, contradicting old.length < T.length
        exfalso
        have h1 : old.length = a.length + w.length := by
          rw [hw1] ; simp [List.length_append]
        have h2 : w.length = T.length + t.length := by
          rw [ht1] ; simp [List.length_append]
        omega
      · -- T = w ++ t with w ≠ []: a genuine straddle, excluded by hc1/hc2
        exfalso
        have hwlen : 1 ≤ w.length := by
          cases w with
          | nil => exact absurd rfl hwnil
          | cons x xs => simp
        have hwold : old.length = a.length + w.length := by
          rw [hw1] ; simp [List.length_append]
        by_cases hall : w.length = old.length
        · have ha : a = [] := by
            have : a.length = 0 := by omega
            exact List.length_eq_zero.mp this
          subst ha
          have how : old = w := by simpa using hw1
          have hTold : pyContains T old = true := by
            refine pyContains_of_pyStartsWith ?_
            rw [ht1, how]
            exact pyStartsWith_append_left w t
          rw [hc1] at hTold
          exact absurd hTold (by decide)
        · have hm : w.length < old.length := by omega
          have htake : T.take w.length = w := by
            rw [ht1]
            exact List.take_left w t
          have hdrop : old.drop a.length = w := by
            rw [hw1]
            exact List.drop_left a w
          have hidx : old.length - w.length = a.length := by omega
          exact (hc2 w.length hm hwlen) (by rw [htake, hidx, hdrop])

/-- A nonempty suffix of the protected string `T` and the pattern `old`
cannot both be prefixes of the same string (under the no-overlap side
conditions). -/
theorem no_double_head_match {old T u : Str} (k : Nat)
    (hc1 : pyContains T old = false)
    (hc3 : ∀ m, m < old.length → 1 ≤ m → old.take m ≠ T.drop (T.length - m))
    (hk : T.drop k ≠ []) (h : pyStartsWith u (T.drop k) = true)
    (hm : pyStartsWith u old = true) : False := by
  have hkT : k < T.length := by
    by_contra hge
    push_neg at hge
    exact hk (List.drop_eq_nil_of_le hge)
  have hlen : (T.drop k).length = T.length - k := List.length_drop k T
  rcases Nat.le_total old.length (T.drop k).length with hle | hle
  · have h1 : pyStartsWith (T.drop k) old = true := pyStartsWith_trans_le hm h hle
    have h2 : pyContains T old = true :=
      pyContains_drop k (pyContains_of_pyStartsWith h1)
    rw [hc1] at h2
    exact absurd h2 (by decide)
  · have h1 : pyStartsWith old (T.drop k) = true := pyStartsWith_trans_le h hm hle
    obtain ⟨w, hw⟩ := exists_of_pyStartsWith h1
    by_cases hEq : (T.drop k).length = old.length
    · have hw0 : w = [] := by
        have hlw := congrArg List.length hw
        simp only [List.length_append] at hlw
        exact List.length_eq_zero.mp (by omega)
      subst hw0
      have hOldEq : old = T.drop k := by simpa using hw
      have h2 : pyContains T old = true := by
        refine pyContains_drop k (pyContains_of_pyStartsWith ?_)
        rw [hOldEq]
        exact pyStartsWith_refl _
      rw [hc1] at h2
      exact absurd h2 (by decide)
    · have hlt : (T.drop k).length < old.length := by omega
      have hge1 : 1 ≤ (T.drop k).length := by
        cases hdk : T.drop k with
        | nil => exact absurd hdk hk
        | cons t T1 => simp [hdk]
      have htk : old.take (T.drop k).length = T.drop k := by
        rw [hw]
        exact List.take_left (T.drop k) w
      have hidx : T.length - (T.drop k).length = k := by omega
      exact (hc3 (T.drop k).length hlt hge1) (by rw [htk, hidx])

/-- When a prefix of the processed string is a nonempty suffix of the
protected string, `pyReplaceAllAux` copies it unchanged. -/
theorem pyStartsWith_suffix_replaceAllAux {old T : Str} (new : Str)
    (hc1 : pyContains T old = false)
    (hc3 : ∀ m, m < old.length → 1 ≤ m → old.take m ≠ T.drop (T.length - m)) :
    ∀ fuel u k, T.drop k ≠ [] → pyStartsWith u (T.drop k) = true →
      pyStartsWith (pyReplaceAllAux fuel u old new) (T.drop k) = true := by
  intro fuel
  induction fuel with
  | zero => intro u k _ h ; simpa [pyReplaceAllAux] using h
  | succ fuel ih =>
    intro u k hk h
    cases u with
    | nil =>
      cases hdk : T.drop k with
      | nil => exact absurd hdk hk
      | cons t T1 => rw [hdk] at h ; simp [pyStartsWith] at h
    | cons c rest =>
      by_cases hm : pyStartsWith (c :: rest) old = true
      · exact absurd hm (fun hm => (no_double_head_match k hc1 hc3 hk h hm).elim)
      · have hm' : pyStartsWith (c :: rest) old = false := by
          simpa using hm
        rw [show pyReplaceAllAux (fuel + 1) (c :: rest) old new
            = c :: pyReplaceAllAux fuel rest old new from by
          simp [pyReplaceAllAux, hm']]
        cases hdk : T.drop k with
        | nil => exact absurd hdk hk
        | cons t T1 =>
          rw [hdk] at h
          simp only [pyStartsWith, Bool.and_eq_true, beq_iff_eq] at h ⊢
          refine ⟨h.1, ?_⟩
          have hT1drop : T.drop (k + 1) = T1 := by
            have hdd : (T.drop k).drop 1 = T.drop (k + 1) := List.drop_drop 1 k T
            rw [← hdd, hdk]
            rfl
          cases hT1 : T1 with
          | nil => exact pyStartsWith_nil_pat _
          | cons t2 T2 =>
            have := ih rest (k + 1) (by rw [hT1drop, hT1] ; simp)
              (by rw [hT1drop] ; exact hT1 ▸ h.2)
            rw [hT1drop, hT1] at this
            exact this

/-- When a prefix of the processed string is a nonempty suffix of the
protected string, `pyReplaceOnce` copies it unchanged. -/
theorem pyStartsWith_suffix_replaceOnce {old T : Str} (new : Str)
    (hc1 : pyContains T old = false)
    (hc3 : ∀ m, m < old.length → 1 ≤ m → old.take m ≠ T.drop (T.length - m)) :
    ∀ u k, T.drop k ≠ [] → pyStartsWith u (T.drop k) = true →
      pyStartsWith (pyReplaceOnce u old new) (T.drop k) = true := by
  intro u
  induction u with
  | nil =>
    intro k hk h
    cases hdk : T.drop k with
    | nil => exact absurd hdk hk
    | cons t T1 => rw [hdk] at h ; simp [pyStartsWith] at h
  | cons c rest ih =>
    intro k hk h
    by_cases hm : pyStartsWith (c :: rest) old = true
    · exact absurd hm (fun hm => (no_double_head_match k hc1 hc3 hk h hm).elim)
    · have hm' : pyStartsWith (c :: rest) old = false := by
        simpa using hm
      rw [show pyReplaceOnce (c :: rest) old new
          = c :: pyReplaceOnce rest old new from by
        simp [pyReplaceOnce, hm']]
      cases hdk : T.drop k with
      | nil => exact absurd hdk hk
      | cons t T1 =>
        rw [hdk] at h
        simp only [pyStartsWith, Bool.and_eq_true, beq_iff_eq] at h ⊢
        refine ⟨h.1, ?_⟩
        have hT1drop : T.drop (k + 1) = T1 := by
          have hdd : (T.drop k).drop 1 = T.drop (k + 1) := List.drop_drop 1 k T
          rw [← hdd, hdk]
          rfl
        cases hT1 : T1 with
        | nil => exact pyStartsWith_nil_pat _
        | cons t2 T2 =>
          have := ih (k + 1) (by rw [hT1drop, hT1] ; simp)
            (by rw [hT1drop] ; exact hT1 ▸ h.2)
          rw [hT1drop, hT1] at this
          exact this

/-- `pyReplaceOnce` preserves every occurrence of the protected string `T`
(under the no-overlap side conditions). -/
theorem pyContains_replaceOnce_preserved {old T : Str} (new : Str)
    (hc1 : pyContains T old = false)
    (hc2 : ∀ m, m < old.length → 1 ≤ m → T.take m ≠ old.drop (old.length - m))
    (hc3 : ∀ m, m < old.length → 1 ≤ m → old.take m ≠ T.drop (T.length - m))
    (hc4 : old.length < T.length) :
    ∀ s, pyContains s T = true → pyContains (pyReplaceOnce s old new) T = true := by
  have hT : T ≠ [] := by
    cases T with
    | nil => simp at hc4
    | cons t T1 => simp
  intro s
  induction s with
  | nil =>
    intro h
    cases T with
    | nil => simp at hc4
    | cons t T1 => simp [pyContains, pyStartsWith] at h
  | cons c rest ih =>
    intro h
    have hsplit : pyStartsWith (c :: rest) T = true ∨ pyContains rest T = true := by
      simpa [pyContains] using h
    rcases hsplit with hs | hcr
    · refine pyContains_of_pyStartsWith ?_
      have := pyStartsWith_suffix_replaceOnce new hc1 hc3 (c :: rest) 0
        (by simpa using hT) (by simpa using hs)
      simpa using this
    · by_cases hm : pyStartsWith (c :: rest) old = true
      · have hdrop := pyContains_drop_of_head_match hc1 hc2 hc4 h hm
        rw [show pyReplaceOnce (c :: rest) old new
            = new ++ (c :: rest).drop old.length from by
          simp [pyReplaceOnce, hm]]
        exact pyContains_append_right new hdrop
      · have hm' : pyStartsWith (c :: rest) old = false := by
          simpa using hm
        rw [show pyReplaceOnce (c :: rest) old new
            = c :: pyReplaceOnce rest old new from by
          simp [pyReplaceOnce, hm']]
        exact pyContains_cons c (ih hcr)

/-- `pyReplaceAllAux` preserves every occurrence of the protected string `T`
(under the no-overlap side conditions), given enough fuel. -/
theorem pyContains_replaceAllAux_preserved {old T : Str} (new : Str)
    (hold : old ≠ [])
    (hc1 : pyContains T old = false)
    (hc2 : ∀ m, m < old.length → 1 ≤ m → T.take m ≠ old.drop (old.length - m))
    (hc3 : ∀ m, m < old.length → 1 ≤ m → old.take m ≠ T.drop (T.length - m))
    (hc4 : old.length < T.length) :
    ∀ fuel s, s.length ≤ fuel → pyContains s T = true →
      pyContains (pyReplaceAllAux fuel s old new) T = true := by
  have hT : T ≠ [] := by
    cases T with
    | nil => simp at hc4
    | cons t T1 => simp
  intro fuel
  induction fuel with
  | zero => intro s _ h ; simpa [pyReplaceAllAux] using h
  | succ fuel ih =>
    intro s hlen h
    cases s with
    | nil => simpa [pyReplaceAllAux] using h
    | cons c rest =>
      have hsplit : pyStartsWith (c :: rest) T = true ∨ pyContains rest T = true := by
        simpa [pyContains] using h
      rcases hsplit with hs | hcr
      · refine pyContains_of_pyStartsWith ?_
        have := pyStartsWith_suffix_replaceAllAux new hc1 hc3 (fuel + 1) (c :: rest) 0
          (by simpa using hT) (by simpa using hs)
        simpa using this
      · by_cases hm : pyStartsWith (c :: rest) old = true
        · have hdrop := pyContains_drop_of_head_match hc1 hc2 hc4 h hm
          have hemp : old.isEmpty = false := by
            cases old with
            | nil => exact absurd rfl hold
            | cons o os => rfl
          rw [show pyReplaceAllAux (fuel + 1) (c :: rest) old new
              = new ++ pyReplaceAllAux fuel ((c :: rest).drop old.length) old new from by
            simp [pyReplaceAllAux, hm, hemp]]
          have hone : 1 ≤ old.length := by
            cases old with
            | nil => exact absurd rfl hold
            | cons o os => simp
          have hlen2 : ((c :: rest).drop old.length).length ≤ fuel := by
            simp only [List.length_drop, List.length_cons] at *
            omega
          exact pyContains_append_right new (ih _ hlen2 hdrop)
        · have hm' : pyStartsWith (c :: rest) old = false := by
            simpa using hm
          rw [show pyReplaceAllAux (fuel + 1) (c :: rest) old new
              = c :: pyReplaceAllAux fuel rest old new from by
            simp [pyReplaceAllAux, hm']]
          have hlen2 : rest.length ≤ fuel := by
            simp only [List.length_cons] at hlen
            omega
          exact pyContains_cons c (ih rest hlen2 hcr)

/-- After `pyReplaceOnce s old new` with `old` occurring in `s`, the
replacement text `new` occurs in the output. -/
theorem pyContains_new_of_replaceOnce (old new : Str) :
    ∀ s, pyContains s old = true → pyContains (pyReplaceOnce s old new) new = true := by
  intro s
  induction s with
  | nil =>
    intro h
    cases old with
    | nil =>
      rw [show pyReplaceOnce [] [] new = new from by simp [pyReplaceOnce, pyStartsWith]]
      exact pyContains_of_pyStartsWith (pyStartsWith_refl new)
    | cons o os => simp [pyContains, pyStartsWith] at h
  | cons c rest ih =>
    intro h
    by_cases hm : pyStartsWith (c :: rest) old = true
    · rw [show pyReplaceOnce (c :: rest) old new
          = new ++ (c :: rest).drop old.length from by
        simp [pyReplaceOnce, hm]]
      exact pyContains_append_left _ (pyContains_of_pyStartsWith (pyStartsWith_refl new))
    · have hm' : pyStartsWith (c :: rest) old = false := by
        simpa using hm
      rw [show pyReplaceOnce (c :: rest) old new
          = c :: pyReplaceOnce rest old new from by
        simp [pyReplaceOnce, hm']]
      exact pyContains_cons c (ih (pyContains_elim_cons h hm'))

/-- Claim C5 (amended): viewport insertion is guarded by a case-insensitive
substring test for "viewport" (not a check for an actual meta tag) and
requires a closing head tag: for every HTML input whose lower-cased text
lacks the substring "viewport" and which contains "</head>", the normalized
output contains the viewport meta tag immediately before the closing head
tag (the block `viewport_meta ++ "\n</head>"` occurs in it).  For the spec's
example input "<body><img src=x></body>", which has no closing head tag, the
normalized HTML contains no viewport meta tag, though the img tag carries a
lazy-load attribute and the body contents are wrapped in the semantic
content container. -/
theorem C5_amended_viewport_needs_closing_head (h : Str) (d : List Str) :
    (pyContains (pyLower h) (("viewport").data) = false →
      pyContains h (("</head>").data) = true →
      pyContains (Agent.optimize_html h d)
        (Agent.viewport_meta ++ ("\n</head>").data) = true) ∧
    Agent.optimize_html headHtml exDevices
      = ("<head><title>t</title><meta name=\"viewport\" content=\"width=device-width, initial-scale=1.0\">\n</head><body>\n    <main><img loading=\"lazy\" src=x>    </main>\n</body>").data ∧
    pyContains (Agent.optimize_html bakeryHtml exDevices) (("viewport").data) = false ∧
    pyContains (Agent.optimize_html bakeryHtml exDevices) (("loading=\"lazy\"").data)
      = true ∧
    pyContains (Agent.optimize_html bakeryHtml exDevices) (("<main>").data) = true := by
  refine ⟨?_, by decide, by decide, by decide, by decide⟩
  intro hguard hhead
  simp only [Agent.optimize_html]
  rw [if_pos hguard]
  have hstep1 : pyContains (pyReplaceOnce h (("</head>").data)
      (Agent.viewport_meta ++ ("\n</head>").data))
      (Agent.viewport_meta ++ ("\n</head>").data) = true :=
    pyContains_new_of_replaceOnce (("</head>").data)
      (Agent.viewport_meta ++ ("\n</head>").data) h hhead
  have hstep2 : pyContains (pyReplaceAll (pyReplaceOnce h (("</head>").data)
      (Agent.viewport_meta ++ ("\n</head>").data)) (("<img").data)
      (("<img loading=\"lazy\"").data))
      (Agent.viewport_meta ++ ("\n</head>").data) = true := by
    unfold pyReplaceAll
    exact pyContains_replaceAllAux_preserved (("<img loading=\"lazy\"").data)
      (by decide) (by decide) (by decide) (by decide) (by decide)
      _ _ (le_refl _) hstep1
  by_cases hmain : pyContains (pyReplaceAll (pyReplaceOnce h (("</head>").data)
      (Agent.viewport_meta ++ ("\n</head>").data)) (("<img").data)
      (("<img loading=\"lazy\"").data)) (("<main>").data) = false
  · rw [if_pos hmain]
    exact pyContains_replaceOnce_preserved (("    </main>\n</body>").data)
      (by decide) (by decide) (by decide) (by decide) _
      (pyContains_replaceOnce_preserved (("<body>\n    <main>").data)
        (by decide) (by decide) (by decide) (by decide) _ hstep2)
  · rw [if_neg hmain]
    exact hstep2

/-- Witness for the universal part of C5 at a concrete input: the head-tagged
example gains the viewport block immediately before its closing head tag. -/
theorem C5_amended_viewport_needs_closing_head_witness :
    pyContains (Agent.optimize_html headHtml exDevices)
      (Agent.viewport_meta ++ ("\n</head>").data) = true :=
  (C5_amended_viewport_needs_closing_head headHtml exDevices).1
    (by decide) (by decide)

/-! ## Claim C6 -/

/-- Claim C6 (counterexample): when the persistence step fails after the 75%
checkpoint, the progress values written over the lifecycle are 25, 75 and
then 0 — the terminal `error` write resets progress to 0.0, so the written
sequence is not non-decreasing. -/
theorem C6_counterexample :
    ((Orchestrator.process_generation gid ckey bakeryResult createdAt
        { upd25_raises := none, upd75_raises := none,
          save_raises := some (("[Errno 28] No space left on device").data),
          cache_raises := none, upd100_raises := none }).statusWrites.map
        (fun w => w.progress) = [25, 75, 0]) ∧
    nonDecreasing ((Orchestrator.process_generation gid ckey bakeryResult createdAt
        { upd25_raises := none, upd75_raises := none,
          save_raises := some (("[Errno 28] No space left on device").data),
          cache_raises := none, upd100_raises := none }).statusWrites.map
        (fun w => w.progress)) = false := by
  constructor
  · rfl
  · rfl

/-- Claim C6 (amended): over one run of the background unit, the progress
values written strictly before the terminal write form a non-decreasing
sequence, every write before the terminal one is a `processing` write, the
last write is terminal (`completed` or `error`) and nothing is written after
it; on a failure-free run the whole written sequence 25, 75, 100 is
non-decreasing — but the terminal `error` write itself carries progress 0,
which may be lower than the progress written before it. -/
theorem C6_amended_monotone_before_terminal (generation_id cache_key created_at : Str)
    (r : GenerationResult) (env : RunEnv) :
    nonDecreasing (((Orchestrator.process_generation generation_id cache_key r
        created_at env).statusWrites.dropLast).map (fun w => w.progress)) = true ∧
    ((Orchestrator.process_generation generation_id cache_key r
        created_at env).statusWrites.dropLast).all
      (fun w => w.status == ("processing").data) = true ∧
    Orchestrator.isTerminalWrite
      (Orchestrator.process_generation generation_id cache_key r
        created_at env).statusWrites.getLast? = true ∧
    nonDecreasing ((Orchestrator.process_generation generation_id cache_key r
        created_at RunEnv.ok).statusWrites.map (fun w => w.progress)) = true := by
  obtain ⟨f1, f2, f3, f4, f5⟩ := env
  cases f1 <;> cases f2 <;> cases f3 <;> cases f4 <;> cases f5 <;>
    exact ⟨rfl, rfl, rfl, rfl⟩

/-! ## Claim C7 -/

/-- Claim C7 (counterexample): on a cache miss the submit endpoint returns a
`processing` status at 0% but performs no Status Store write at all, so a
status poll issued after submit returns and before the background unit's
first 25% checkpoint finds neither a store entry nor an output file and
reports not-found — not `processing`. -/
theorem C7_counterexample :
    (Orchestrator.generate_website gid none).statusStoreWrites = [] ∧
    (Orchestrator.generate_website gid none).response.status = ("processing").data ∧
    Orchestrator.get_generation_status gid none false false
      = Orchestrator.StatusResult.notFound := by
  exact ⟨rfl, rfl, rfl⟩

/-- Claim C7 (amended): on a cache miss, submit returns (to its caller only)
an initial `processing` status at 0% and schedules the background work, but
records nothing in the Status Store; the first store write is the background
unit's 25% checkpoint, so a poll arriving before it reports not-found. -/
theorem C7_amended_initial_status_not_stored (generation_id : Str) :
    (Orchestrator.generate_website generation_id none).response.status
      = ("processing").data ∧
    (Orchestrator.generate_website generation_id none).response.progress = 0 ∧
    (Orchestrator.generate_website generation_id none).backgroundScheduled = true ∧
    (Orchestrator.generate_website generation_id none).statusStoreWrites = [] ∧
    Orchestrator.get_generation_status generation_id none false false
      = Orchestrator.StatusResult.notFound := by
  exact ⟨rfl, rfl, rfl, rfl, rfl⟩

/-! ## Claim C8 -/

/-- Claim C8 (confirmed): `get_generation_status` returns the Status Store
entry when one is present; with no store entry it probes the filesystem and,
when the persisted `index.html` for that ID exists (whence its directory
exists too — the `hfs` hypothesis), synthesizes a `completed` status at 100%
with the result URL; otherwise it reports not-found. -/
theorem C8_status_lookup_chain (generation_id : Str)
    (store : Option GenerationStatus) (site_dir_exists index_html_exists : Bool)
    (hfs : index_html_exists = true → site_dir_exists = true) :
    (∀ st, store = some st →
      Orchestrator.get_generation_status generation_id store site_dir_exists
        index_html_exists = Orchestrator.StatusResult.found st) ∧
    (store = none → index_html_exists = true →
      Orchestrator.get_generation_status generation_id store site_dir_exists
        index_html_exists
        = Orchestrator.StatusResult.found
            { generation_id := generation_id, status := ("completed").data,
              progress := 100, message := ("Генерация завершена").data,
              result_url := some (Orchestrator.site_url generation_id),
              error := none }) ∧
    (store = none → index_html_exists = false →
      Orchestrator.get_generation_status generation_id store site_dir_exists
        index_html_exists = Orchestrator.StatusResult.notFound) := by
  refine ⟨?_, ?_, ?_⟩
  · intro st h
    subst h
    rfl
  · intro h1 h2
    subst h1
    subst h2
    rw [hfs rfl]
    rfl
  · intro h1 h2
    subst h1
    subst h2
    simp [Orchestrator.get_generation_status]

/-- Witness for C8 at concrete inputs: a present store entry is returned
as-is, and with no entry but an existing output file the synthesized
completed status is returned. -/
theorem C8_status_lookup_chain_witness :
    Orchestrator.get_generation_status gid none true true
      = Orchestrator.StatusResult.found
          { generation_id := gid, status := ("completed").data, progress := 100,
            message := ("Генерация завершена").data,
            result_url := some (Orchestrator.site_url gid), error := none } :=
  (C8_status_lookup_chain gid none true true (fun _ => rfl)).2.1 rfl rfl

/-! ## Claim C9 -/

/-- A generation result whose HTML payload is the empty string (and whose
CSS payload is not). -/
def emptyHtmlResult : GenerationResult :=
  { status := ("success").data
    site_name := ("Bakery").data
    generation_id := []
    html_content := []
    css_content := ("body \x7b margin: 0; \x7d").data
    js_content := []
    seo_meta := [((("title").data), (("Bakery").data))]
    images_used := []
    generation_time := 2
    error_message := [] }

/-- A prior on-disk state for the same generation ID. -/
def priorDir : SiteDir :=
  { index_html := some (("stale").data)
    styles_css := some (("stale-css").data)
    script_js := none
    meta_json := none }

/-- Claim C9 (counterexample): for a result whose HTML payload is the empty
string, `save_generation_result` does not write `index.html` at all (the
source guards each payload write with Python truthiness), and a prior
`index.html` for the same ID survives unchanged instead of being
overwritten; the empty JS payload is likewise skipped. -/
theorem C9_counterexample :
    (Orchestrator.save_generation_result gid emptyHtmlResult createdAt).index_html
      = none ∧
    (applySave priorDir
        (Orchestrator.save_generation_result gid emptyHtmlResult createdAt)).index_html
      = some (("stale").data) ∧
    (Orchestrator.save_generation_result gid emptyHtmlResult createdAt).script_js
      = none := by
  exact ⟨rfl, rfl, rfl⟩

/-- Claim C9 (amended): `save_generation_result` writes each of the HTML, CSS
and JS payloads to its per-ID file only when the payload is non-empty — an
empty payload's file is skipped and any prior content for it survives — and
always writes the metadata file (creation timestamp, generation time, SEO
metadata, image URLs), overwriting the files it does write. -/
theorem C9_amended_nonempty_payloads_written (generation_id created_at : Str)
    (result : GenerationResult) (prior : SiteDir) :
    (Orchestrator.save_generation_result generation_id result created_at).index_html
      = (if result.html_content = [] then none else some result.html_content) ∧
    (Orchestrator.save_generation_result generation_id result created_at).styles_css
      = (if result.css_content = [] then none else some result.css_content) ∧
    (Orchestrator.save_generation_result generation_id result created_at).script_js
      = (if result.js_content = [] then none else some result.js_content) ∧
    (Orchestrator.save_generation_result generation_id result created_at).meta_json
      = { generation_id := generation_id, site_name := result.site_name,
          created_at := created_at, generation_time := result.generation_time,
          seo_meta := result.seo_meta, images_used := result.images_used } ∧
    (applySave prior
        (Orchestrator.save_generation_result generation_id result created_at)).meta_json
      = some (Orchestrator.save_generation_result generation_id result
          created_at).meta_json ∧
    (applySave prior
        (Orchestrator.save_generation_result generation_id result created_at)).index_html
      = (if result.html_content = [] then prior.index_html
         else some result.html_content) := by
  refine ⟨rfl, rfl, rfl, rfl, rfl, ?_⟩
  by_cases h : result.html_content = [] <;>
    simp [Orchestrator.save_generation_result, applySave, h, Option.orElse]

/-! ## Claim C10 -/

/-- Claim C10 (confirmed): the Generation Client's `generate_website` never
raises — its body runs inside `try/except Exception` — so every call yields
a `GenerationResult` with status `success` or `error`; when the LLM call
raises, the result carries status `error`, the exception's message and the
elapsed time; when the reply fails to decode as JSON, the result carries
status `error` and the `ValueError` message wrapping the decode error. -/
theorem C10_agent_never_raises (request : GenerationRequest) (llm : LlmOutcome)
    (jsonLoads : Str → Except Str LlmData) (elapsed : Nat) :
    ((Agent.generate_website request llm jsonLoads elapsed).status = ("success").data ∨
     (Agent.generate_website request llm jsonLoads elapsed).status = ("error").data) ∧
    (∀ msg, llm = LlmOutcome.raises msg →
      (Agent.generate_website request llm jsonLoads elapsed).status = ("error").data ∧
      (Agent.generate_website request llm jsonLoads elapsed).error_message = msg ∧
      (Agent.generate_website request llm jsonLoads elapsed).generation_time
        = elapsed) ∧
    (∀ content e, llm = LlmOutcome.returns content →
      jsonLoads (pyStrip content) = Except.error e →
      (Agent.generate_website request llm jsonLoads elapsed).status = ("error").data ∧
      (Agent.generate_website request llm jsonLoads elapsed).error_message
        = (("Ошибка парсинга JSON ответа: ").data) ++ e ∧
      (Agent.generate_website request llm jsonLoads elapsed).generation_time
        = elapsed) := by
  refine ⟨?_, ?_, ?_⟩
  · cases llm with
    | raises msg => exact Or.inr rfl
    | returns content =>
      cases hj : jsonLoads (pyStrip content) with
      | ok d =>
        left
        simp [Agent.generate_website, Agent.parse_response, hj]
      | error e =>
        right
        simp [Agent.generate_website, Agent.parse_response, hj]
  · intro msg h
    subst h
    exact ⟨rfl, rfl, rfl⟩
  · intro content e h hj
    subst h
    simp [Agent.generate_website, Agent.parse_response, hj]

/-- Witness for C10 at concrete inputs: an unreachable-endpoint exception on
the Bakery request yields an error-status result carrying the message. -/
theorem C10_agent_never_raises_witness :
    (Agent.generate_website bakeryReq (LlmOutcome.raises (("Connection error.").data))
        failLoads 3).status = ("error").data ∧
    (Agent.generate_website bakeryReq (LlmOutcome.raises (("Connection error.").data))
        failLoads 3).error_message = ("Connection error.").data ∧
    (Agent.generate_website bakeryReq (LlmOutcome.raises (("Connection error.").data))
        failLoads 3).generation_time = 3 :=
  (C10_agent_never_raises bakeryReq (LlmOutcome.raises (("Connection error.").data))
      failLoads 3).2.1 (("Connection error.").data) rfl
